import Mathlib

/-!
# Verification of the `decoder.py` progress-estimation subsystem

A shallow embedding of `src/decoder.py` (a video → audio → transcription
pipeline) in Lean 4, together with theorems settling the specification's
claims about it.

Modelling conventions:
* Python floats are modelled as exact rationals (`ℚ`); `int(x)` (truncation
  toward zero) is `pyTrunc`.
* The `tqdm` progress bar is modelled by its integer counter `n`:
  `bar.update(k)` adds `k` to `n` (negative `k` decreases it, as in `tqdm`),
  and `bar.close()` leaves `n` unchanged.
* The ffmpeg `-progress` feed is a list of per-line parse results: `none`
  for a line that is skipped (no `out_time_ms=` prefix, or a value that
  `float()` rejects — the `except (ValueError, IndexError): pass` branch),
  `some t` for a line carrying the parsed marker value `t` (microseconds).
* The filesystem facts the claims mention (existence of the output audio
  file, of the `.tmp` marker file, of the transcript) are explicit booleans
  threaded through the control-flow model.
-/

/-- Python's `int()` applied to a float/rational: truncation toward zero. -/
def pyTrunc (x : ℚ) : ℤ :=
  if 0 ≤ x then ⌊x⌋ else -⌊-x⌋

/-- `decoder.py` lines 79–81: the progress computed from one parsed
`out_time_ms=` marker value `time_ms`, given the probed `duration`:
`current_time = time_ms / 1000000`;
`progress = min(int((current_time / duration) * 100), 100)`. -/
def extractProgress (duration time_ms : ℚ) : ℤ :=
  let current_time := time_ms / 1000000
  min (pyTrunc (current_time / duration * 100)) 100

/-- `decoder.py` lines 76–84: processing of one line of the progress feed.
A line whose marker value did not parse (`none`) falls into the
`except ... pass` branch and leaves the bar untouched; a parsed marker runs
`progress_bar.update(progress - progress_bar.n)`, i.e. adds
`progress - n` to the bar counter. -/
def extractStep (duration : ℚ) (bar : ℤ) (line : Option ℚ) : ℤ :=
  match line with
  | none => bar
  | some time_ms => bar + (extractProgress duration time_ms - bar)

/-- The `for line in process.stdout` loop of `extract_audio`
(lines 76–84): fold `extractStep` over the whole feed. -/
def processFeed (duration : ℚ) (bar : ℤ) : List (Option ℚ) → ℤ
  | [] => bar
  | l :: rest => processFeed duration (extractStep duration bar l) rest

/-- The successive bar-counter values displayed while the loop of
`extract_audio` runs: one entry per feed line. -/
def extractTrace (duration : ℚ) (bar : ℤ) : List (Option ℚ) → List ℤ
  | [] => []
  | l :: rest =>
      let b := extractStep duration bar l
      b :: extractTrace duration b rest

/-- `decoder.py` lines 76–88: the whole monitored extraction run for a
known positive duration: process the feed, then `process.wait()` and
`progress_bar.close()` — neither of which changes the bar counter.
Returns the final bar value. -/
def extract_monitor (duration : ℚ) (feed : List (Option ℚ)) : ℤ :=
  let bar := processFeed duration 0 feed
  bar

/-! ## Transcription progress tracker

`TranscriptionProgressTracker._track_progress` (lines 145–179) runs in a
background thread.  Each iteration of its `while self.running and
progress < 100` loop sleeps 0.5 s and then observes the environment: the
marker file's existence/size, and whether ≥ 1 s of wall-clock time has
passed since the last heuristic update.  We model one iteration's
observation as `TrackObs` and the mutable state (`progress`, the bar
counter, `last_size`, `running`) as `TrackSt`. -/

/-- One iteration's view of the environment inside `_track_progress`:
`fileSize = some k` when `self.temp_file` exists with size `k`, `none`
when it does not; `heurTick` is whether `current_time - last_update ≥ 1.0`
held on this iteration. -/
structure TrackObs where
  fileSize : Option ℕ
  heurTick : Bool
deriving DecidableEq

/-- The mutable state of `TranscriptionProgressTracker` and its thread:
the local `progress` counter, the bar counter `barN`, `self.last_size`,
and `self.running`. -/
structure TrackSt where
  progress : ℤ
  barN : ℤ
  lastSize : ℕ
  running : Bool
deriving DecidableEq

/-- Tracker state right after `start_tracking`: progress 0, bar at 0,
`last_size = 0`, `running = True`. -/
def initTrack : TrackSt :=
  { progress := 0, barN := 0, lastSize := 0, running := true }

/-- Lines 174–175: `if progress > 100: progress = 100`. -/
def clampProgress (s : TrackSt) : TrackSt :=
  if s.progress > 100 then { s with progress := 100 } else s

/-- One body of the `while` loop of `_track_progress` (lines 154–175):
if the marker file exists, a strictly larger size advances `progress` and
the bar by one; otherwise, a heuristic tick advances `progress` by one and
the bar by one only while `progress ≤ 95`
(`self.progress_bar.update(1 if progress <= 95 else 0)`); finally the
`progress > 100` clamp runs. -/
def trackStep (s : TrackSt) (o : TrackObs) : TrackSt :=
  clampProgress <|
    match o.fileSize with
    | some current_size =>
        if s.lastSize < current_size then
          { s with lastSize := current_size
                 , progress := s.progress + 1
                 , barN := s.barN + 1 }
        else s
    | none =>
        if o.heurTick then
          { s with progress := s.progress + 1
                 , barN := s.barN + (if s.progress + 1 ≤ 95 then 1 else 0) }
        else s

/-- The `while self.running and progress < 100` loop (line 153): consume
observations while the condition holds.  The observation list covers the
iterations the environment offers; an empty remainder means the loop is
still at its guard when the run of interest ends. -/
def trackLoop (s : TrackSt) : List TrackObs → TrackSt
  | [] => s
  | o :: rest =>
      if s.running = true ∧ s.progress < 100 then trackLoop (trackStep s o) rest
      else s

/-- Lines 178–179, run when the thread leaves the loop:
`self.progress_bar.update(100 - self.progress_bar.n)`, forcing the bar
counter to 100. -/
def trackFinalize (s : TrackSt) : TrackSt :=
  { s with barN := s.barN + (100 - s.barN) }

/-- `TranscriptionProgressTracker.stop` (lines 181–187): clear `running`
(the bar `close()` does not change the counter). -/
def trackStop (s : TrackSt) : TrackSt :=
  { s with running := false }

/-! ## `transcribe_audio` control flow

`transcribe_audio` (lines 189–246) is modelled at the level of the
filesystem facts and tracker lifecycle the claims talk about.  The
blocking `model.transcribe` call is an external collaborator; its outcome
(a transcript, or a raised exception) is a parameter. -/

/-- The filesystem facts relevant to one `transcribe_audio` run. -/
structure TransFs where
  tempExists : Bool
  textExists : Bool
deriving DecidableEq

/-- Result of a `transcribe_audio` run: the final filesystem state, the
final tracker state, whether the marker (`.tmp`) file was ever created
during the run, and the returned transcript or propagated exception. -/
structure TransRun where
  fs : TransFs
  tracker : TrackSt
  tempWasCreated : Bool
  result : Except String String

/-- Lines 208–210: `temp_file = f"{output_text_path}.tmp"`;
`if os.path.exists(temp_file): os.remove(temp_file)`.  Returns the
filesystem state at the moment `start_tracking` launches the polling
thread (line 214). -/
def tempAtPollStart (fs : TransFs) : TransFs :=
  if fs.tempExists = true then { fs with tempExists := false } else fs

/-- Lines 189–246 of `decoder.py`: the `transcribe_audio` run.
`fs` is the filesystem on entry; `outcome` is what `model.transcribe`
does (`.ok text` returns a result dictionary with that text, `.error e`
raises).  On success the marker file is written (line 221–222), the
transcript saved (228–229), the tracker stopped (232) and the marker
removed (235–236).  On exception the `except` block (241–246) stops the
tracker, removes the marker if present, and re-raises. -/
def transcribe_audio (fs : TransFs) (outcome : Except String String) : TransRun :=
  let fs1 := tempAtPollStart fs
  let tracker := initTrack
  match outcome with
  | .ok text =>
      let fs2 := { fs1 with tempExists := true }
      let fs3 := { fs2 with textExists := true }
      let tracker2 := trackStop tracker
      let fs4 := if fs3.tempExists = true then { fs3 with tempExists := false } else fs3
      { fs := fs4, tracker := tracker2, tempWasCreated := true, result := .ok text }
  | .error e =>
      let tracker2 := trackStop tracker
      let fs2 := if fs1.tempExists = true then { fs1 with tempExists := false } else fs1
      { fs := fs2, tracker := tracker2, tempWasCreated := false, result := .error e }

/-! ## `main` orchestration

`main` (lines 248–288): find `*.mp4` files, bail out if none, extract
audio from the first, then transcribe.  `extract_audio`'s final check
(lines 90–95) calls `sys.exit(1)` when the output audio file is absent
after the process exits. -/

/-- Terminal outcome of a `main` run: early return with no input, process
exit with a code (from `sys.exit` in `extract_audio`), an uncaught
exception from `transcribe_audio`, or normal completion with the
transcript. -/
inductive MainResult where
  | noInput : MainResult
  | exited : ℕ → MainResult
  | raised : String → MainResult
  | done : String → MainResult
deriving DecidableEq

/-- The environment a `main` run sees: the `glob.glob("*.mp4")` listing,
whether the ffmpeg invocation actually produces the output audio file,
and what `model.transcribe` does. -/
structure Env where
  mp4Files : List String
  extractionProducesAudio : Bool
  transcribeOutcome : Except String String

/-- Observable facts about a finished `main` run. -/
structure RunOutcome where
  result : MainResult
  extractionAttempted : Bool
  transcriptionAttempted : Bool
  audioExists : Bool
  textExists : Bool
  tempExists : Bool
deriving DecidableEq

/-- Lines 248–288 of `decoder.py`: `main`.  An empty `glob` listing hits
the early `return` (lines 255–257).  Otherwise `extract_audio` runs; if
the output audio file does not exist afterwards, `sys.exit(1)` fires
(lines 93–95) and nothing further runs.  Otherwise `transcribe_audio`
runs on a fresh filesystem (no `.tmp`, no transcript yet); an exception
from it propagates uncaught. -/
def runMain (env : Env) : RunOutcome :=
  match env.mp4Files with
  | [] =>
      { result := .noInput, extractionAttempted := false,
        transcriptionAttempted := false, audioExists := false,
        textExists := false, tempExists := false }
  | _ :: _ =>
      if env.extractionProducesAudio = true then
        let run := transcribe_audio { tempExists := false, textExists := false }
                     env.transcribeOutcome
        match run.result with
        | .ok text =>
            { result := .done text, extractionAttempted := true,
              transcriptionAttempted := true, audioExists := true,
              textExists := run.fs.textExists, tempExists := run.fs.tempExists }
        | .error e =>
            { result := .raised e, extractionAttempted := true,
              transcriptionAttempted := true, audioExists := true,
              textExists := run.fs.textExists, tempExists := run.fs.tempExists }
      else
        { result := .exited 1, extractionAttempted := true,
          transcriptionAttempted := false, audioExists := false,
          textExists := false, tempExists := false }

/-! ## Helper lemmas -/

theorem pyTrunc_eq_floor {x : ℚ} (h : 0 ≤ x) : pyTrunc x = ⌊x⌋ := by
  simp [pyTrunc, h]

theorem pyTrunc_nonneg {x : ℚ} (h : 0 ≤ x) : 0 ≤ pyTrunc x := by
  rw [pyTrunc_eq_floor h]
  exact Int.floor_nonneg.mpr h

theorem pyTrunc_mono {x y : ℚ} (h : x ≤ y) : pyTrunc x ≤ pyTrunc y := by
  unfold pyTrunc
  by_cases hx : 0 ≤ x
  · rw [if_pos hx, if_pos (hx.trans h)]
    exact Int.floor_mono h
  · rw [if_neg hx]
    by_cases hy : 0 ≤ y
    · rw [if_pos hy]
      have h1 : (0 : ℤ) ≤ ⌊-x⌋ := Int.floor_nonneg.mpr (by linarith)
      have h2 : (0 : ℤ) ≤ ⌊y⌋ := Int.floor_nonneg.mpr hy
      omega
    · rw [if_neg hy]
      have h3 : ⌊-y⌋ ≤ ⌊-x⌋ := Int.floor_mono (by linarith)
      omega

theorem extractStep_some (d : ℚ) (bar : ℤ) (t : ℚ) :
    extractStep d bar (some t) = extractProgress d t := by
  simp [extractStep]

theorem extractProgress_le_100 (d t : ℚ) : extractProgress d t ≤ 100 :=
  min_le_right _ _

theorem extractProgress_nonneg {d t : ℚ} (hd : 0 < d) (ht : 0 ≤ t) :
    0 ≤ extractProgress d t := by
  have h1 : (0 : ℚ) ≤ t / 1000000 := div_nonneg ht (by norm_num)
  have h2 : (0 : ℚ) ≤ t / 1000000 / d := div_nonneg h1 hd.le
  have h3 : (0 : ℚ) ≤ t / 1000000 / d * 100 := mul_nonneg h2 (by norm_num)
  exact le_min (pyTrunc_nonneg h3) (by norm_num)

theorem extractProgress_mono {d : ℚ} (hd : 0 < d) {t₁ t₂ : ℚ} (h : t₁ ≤ t₂) :
    extractProgress d t₁ ≤ extractProgress d t₂ := by
  have harg : t₁ / 1000000 / d * 100 ≤ t₂ / 1000000 / d * 100 := by
    have h1 : t₁ / 1000000 ≤ t₂ / 1000000 := by linarith
    have h2 : t₁ / 1000000 / d ≤ t₂ / 1000000 / d := (div_le_div_iff_of_pos_right hd).mpr h1
    linarith
  exact min_le_min (pyTrunc_mono harg) le_rfl

theorem extractTrace_map_some (d : ℚ) (bar : ℤ) (feed : List ℚ) :
    extractTrace d bar (feed.map some) = feed.map (extractProgress d) := by
  induction feed generalizing bar with
  | nil => rfl
  | cons t rest ih => simp [extractTrace, extractStep_some, ih]

theorem processFeed_append (d : ℚ) (bar : ℤ) (xs ys : List (Option ℚ)) :
    processFeed d bar (xs ++ ys) = processFeed d (processFeed d bar xs) ys := by
  induction xs generalizing bar with
  | nil => rfl
  | cons l rest ih => simp [processFeed, ih]

theorem extractTrace_bounds {d : ℚ} (hd : 0 < d) (feed : List (Option ℚ))
    (hnn : ∀ t : ℚ, some t ∈ feed → 0 ≤ t) {bar : ℤ}
    (hbar : 0 ≤ bar ∧ bar ≤ 100) :
    ∀ b ∈ extractTrace d bar feed, 0 ≤ b ∧ b ≤ 100 := by
  induction feed generalizing bar with
  | nil => simp [extractTrace]
  | cons l rest ih =>
      have hstep : 0 ≤ extractStep d bar l ∧ extractStep d bar l ≤ 100 := by
        rcases l with _ | t
        · exact hbar
        · rw [extractStep_some]
          exact ⟨extractProgress_nonneg hd (hnn t (by simp)),
                 extractProgress_le_100 d t⟩
      intro b hb
      rw [extractTrace] at hb
      rcases List.mem_cons.mp hb with rfl | hb
      · exact hstep
      · exact ih (fun t ht => hnn t (List.mem_cons_of_mem _ ht)) hstep b hb

theorem trackStep_bounds {s : TrackSt} (o : TrackObs)
    (h : 0 ≤ s.progress ∧ s.progress ≤ 100 ∧ 0 ≤ s.barN ∧ s.barN ≤ s.progress)
    (hlt : s.progress < 100) :
    0 ≤ (trackStep s o).progress ∧ (trackStep s o).progress ≤ 100 ∧
      0 ≤ (trackStep s o).barN ∧ (trackStep s o).barN ≤ (trackStep s o).progress := by
  obtain ⟨fs, ht⟩ := o
  unfold trackStep clampProgress
  cases fs <;> dsimp only <;> split_ifs <;> simp_all <;> omega

theorem trackLoop_bounds (obs : List TrackObs) {s : TrackSt}
    (h : 0 ≤ s.progress ∧ s.progress ≤ 100 ∧ 0 ≤ s.barN ∧ s.barN ≤ s.progress) :
    0 ≤ (trackLoop s obs).progress ∧ (trackLoop s obs).progress ≤ 100 ∧
      0 ≤ (trackLoop s obs).barN ∧ (trackLoop s obs).barN ≤ (trackLoop s obs).progress := by
  induction obs generalizing s with
  | nil => simpa [trackLoop] using h
  | cons o rest ih =>
      rw [trackLoop]
      split
      · next hguard => exact ih (trackStep_bounds o h hguard.2)
      · exact h

theorem trackStep_heur {s : TrackSt} (o : TrackObs) (ho : o.fileSize = none)
    (h : 0 ≤ s.progress ∧ s.progress ≤ 100 ∧ s.barN = min s.progress 95) :
    0 ≤ (trackStep s o).progress ∧ (trackStep s o).progress ≤ 100 ∧
      (trackStep s o).barN = min (trackStep s o).progress 95 := by
  obtain ⟨fs, ht⟩ := o
  cases fs with
  | some k => simp at ho
  | none =>
      unfold trackStep clampProgress
      dsimp only
      split_ifs <;> simp_all <;> omega

theorem trackLoop_heur (obs : List TrackObs) (hh : ∀ o ∈ obs, o.fileSize = none)
    {s : TrackSt} (h : 0 ≤ s.progress ∧ s.progress ≤ 100 ∧ s.barN = min s.progress 95) :
    0 ≤ (trackLoop s obs).progress ∧ (trackLoop s obs).progress ≤ 100 ∧
      (trackLoop s obs).barN = min (trackLoop s obs).progress 95 := by
  induction obs generalizing s with
  | nil => simpa [trackLoop] using h
  | cons o rest ih =>
      rw [trackLoop]
      split
      · exact ih (fun x hx => hh x (List.mem_cons_of_mem _ hx))
          (trackStep_heur o (hh o (by simp)) h)
      · exact h

/-! ## Claims -/

/-- C1: for a probed duration `d > 0` and an elapsed marker `e`
(microseconds) with `e / 1000000 ∈ [0, d]`, the extraction monitor
computes `min(floor((e/1000000)/d*100), 100)`; with `d = 10` the marker
sequence `0, 2500000, 5000000, 10000000` yields the displayed progress
sequence `0, 25, 50, 100`. -/
theorem extract_progress_matches_spec (d e : ℚ) (hd : 0 < d) (he : 0 ≤ e)
    (_hle : e / 1000000 ≤ d) :
    extractProgress d e = min ⌊e / 1000000 / d * 100⌋ 100 ∧
    extractTrace 10 0 [some 0, some 2500000, some 5000000, some 10000000]
      = [0, 25, 50, 100] := by
  constructor
  · have h1 : (0 : ℚ) ≤ e / 1000000 := div_nonneg he (by norm_num)
    have h2 : (0 : ℚ) ≤ e / 1000000 / d := div_nonneg h1 hd.le
    have h3 : (0 : ℚ) ≤ e / 1000000 / d * 100 := mul_nonneg h2 (by norm_num)
    simp [extractProgress, pyTrunc_eq_floor h3]
  · norm_num [extractTrace, extractStep, extractProgress, pyTrunc]

/-- Witness for `extract_progress_matches_spec` at `d = 10`,
`e = 2500000`. -/
theorem extract_progress_matches_spec_witness :
    extractProgress 10 2500000 = min ⌊(2500000 : ℚ) / 1000000 / 10 * 100⌋ 100 ∧
    extractTrace 10 0 [some 0, some 2500000, some 5000000, some 10000000]
      = [0, 25, 50, 100] :=
  extract_progress_matches_spec 10 2500000 (by norm_num) (by norm_num) (by norm_num)

set_option maxRecDepth 4000 in
/-- C2 counterexample: after 100 fallback (wall-clock heuristic) ticks with
no marker file, the tracker's internal counter reaches 100, the
`while self.running and progress < 100` loop exits on its own — `stop` was
never called, so `running` is still `true`, i.e. the transcription call is
still in flight — and the final `update(100 - n)` forces the bar to 100,
contradicting the claim that the reported value stays strictly below 100
until real completion. -/
theorem tracker_bar_hits_100_in_flight :
    (trackLoop initTrack
        (List.replicate 100 { fileSize := none, heurTick := true })).running = true ∧
    (trackLoop initTrack
        (List.replicate 100 { fileSize := none, heurTick := true })).progress = 100 ∧
    (trackFinalize (trackLoop initTrack
        (List.replicate 100 { fileSize := none, heurTick := true }))).barN = 100 := by
  decide

/-- C2 (amended): while the polling loop is running, the wall-clock
heuristic's contribution keeps the bar at most 95; the bar reaches 100 only
through the final `update(100 - n)` executed when the loop exits — which
happens either on `stop` or when the internal counter reaches 100 (after
about 100 fallback seconds), the latter possibly before the transcription
call returns. -/
theorem tracker_heuristic_capped (obs : List TrackObs)
    (hh : ∀ o ∈ obs, o.fileSize = none) :
    (trackLoop initTrack obs).barN ≤ 95 ∧
    (trackFinalize (trackLoop initTrack obs)).barN = 100 := by
  have h := trackLoop_heur obs hh
    (s := initTrack) ⟨by norm_num [initTrack], by norm_num [initTrack], by simp [initTrack]⟩
  constructor
  · rw [h.2.2]
    exact min_le_right _ _
  · simp [trackFinalize]

/-- Witness for `tracker_heuristic_capped` on a single heuristic tick. -/
theorem tracker_heuristic_capped_witness :
    (trackLoop initTrack [{ fileSize := none, heurTick := true }]).barN ≤ 95 ∧
    (trackFinalize (trackLoop initTrack
        [{ fileSize := none, heurTick := true }])).barN = 100 :=
  tracker_heuristic_capped [{ fileSize := none, heurTick := true }] (by simp)

/-- C3 counterexample: with duration 10, the out-of-order marker sequence
`5000000, 2500000` makes the displayed bar go `50` then `25` — the bar
regresses, because `update(progress - n)` is applied unconditionally, not
only when the computed progress exceeds the current value. -/
theorem extract_display_regresses :
    extractTrace 10 0 [some 5000000, some 2500000] = [50, 25] ∧
    ¬ ((50 : ℤ) ≤ 25) := by
  norm_num [extractTrace, extractStep, extractProgress, pyTrunc]

/-- C3 (amended): after every parsed marker the displayed bar is set to the
newly computed progress unconditionally (`update(progress - n)` makes
`n = progress`, regressing the bar when the new value is smaller); hence
across a monotonically non-decreasing marker sequence the displayed values
are non-decreasing, but out-of-order sequences can regress the display. -/
theorem extract_display_follows_markers (d : ℚ) (bar : ℤ) (t : ℚ)
    (feed : List ℚ) (hd : 0 < d) (hmono : feed.Chain' (· ≤ ·)) :
    extractStep d bar (some t) = extractProgress d t ∧
    (extractTrace d 0 (feed.map some)).Chain' (· ≤ ·) := by
  refine ⟨extractStep_some d bar t, ?_⟩
  rw [extractTrace_map_some]
  exact List.chain'_map_of_chain' _ (fun a b hab => extractProgress_mono hd hab) hmono

/-- Witness for `extract_display_follows_markers` at `d = 10`,
`feed = [2500000, 5000000]`. -/
theorem extract_display_follows_markers_witness :
    extractStep 10 0 (some 2500000) = extractProgress 10 2500000 ∧
    (extractTrace 10 0 ([2500000, 5000000].map some)).Chain' (· ≤ ·) :=
  extract_display_follows_markers 10 0 2500000 [2500000, 5000000]
    (by norm_num) (by norm_num [List.chain'_cons, List.chain'_singleton])

/-- C4 counterexample: with duration 10 and a feed whose last marker is
`5000000`, the extraction run ends with the bar at 50, not 100 — on stream
end the code only calls `process.wait()` and `progress_bar.close()`,
neither of which changes the bar counter, so the ProgressState is not
forced to 100. -/
theorem extract_monitor_not_forced :
    extract_monitor 10 [some 5000000] = 50 ∧ (50 : ℤ) ≠ 100 := by
  norm_num [extract_monitor, processFeed, extractStep, extractProgress, pyTrunc]

/-- C4 (amended): when the extraction progress feed ends, the bar is left
at the last computed progress value (the bar is closed, not forced to
100): for any feed ending in a parsed marker `t`, the final bar value is
exactly `extractProgress d t`. -/
theorem extract_monitor_last_marker (d : ℚ) (feed : List (Option ℚ)) (t : ℚ) :
    extract_monitor d (feed ++ [some t]) = extractProgress d t := by
  simp [extract_monitor, processFeed_append, processFeed, extractStep_some]

/-- C5: when the transcription call raises, the `except` block stops the
progress estimator and removes the marker file before re-raising, so after
the call the tracker is no longer running, the marker file does not exist,
and the original exception propagates unsuppressed. -/
theorem transcription_failure_cleanup (fs : TransFs) (e : String) :
    (transcribe_audio fs (Except.error e)).tracker.running = false ∧
    (transcribe_audio fs (Except.error e)).fs.tempExists = false ∧
    (transcribe_audio fs (Except.error e)).result = Except.error e := by
  simp only [transcribe_audio, tempAtPollStart, trackStop, initTrack]
  split_ifs <;> simp_all

/-- C6: if the output audio file is absent after the extraction process
exits, the run terminates via `sys.exit(1)` (non-zero exit status) and
transcription is never attempted; if the file exists, extraction completes
normally and transcription is attempted. -/
theorem extraction_artifact_gate (env : Env) (h : env.mp4Files ≠ []) :
    (env.extractionProducesAudio = false →
        (runMain env).result = MainResult.exited 1 ∧
        (runMain env).transcriptionAttempted = false) ∧
    (env.extractionProducesAudio = true →
        (runMain env).transcriptionAttempted = true) := by
  obtain ⟨files, prod, outc⟩ := env
  cases files with
  | nil => simp at h
  | cons f rest =>
      constructor
      · intro hf
        simp_all [runMain]
      · intro ht
        cases outc <;> simp_all [runMain, transcribe_audio, tempAtPollStart]

/-- Witness for `extraction_artifact_gate`: one video file, extraction
fails to produce the audio file. -/
theorem extraction_artifact_gate_witness :
    (runMain { mp4Files := ["sample.mp4"], extractionProducesAudio := false,
               transcribeOutcome := Except.ok "txt" }).result = MainResult.exited 1 ∧
    (runMain { mp4Files := ["sample.mp4"], extractionProducesAudio := false,
               transcribeOutcome := Except.ok "txt" }).transcriptionAttempted = false :=
  (extraction_artifact_gate
    { mp4Files := ["sample.mp4"], extractionProducesAudio := false,
      transcribeOutcome := Except.ok "txt" } (by simp)).1 rfl

/-- C7 counterexample: the marker file is not "created fresh before the
background polling starts" — at the moment polling starts it does not
exist, whatever the initial state: lines 208–210 remove it if present and
create nothing (it is only created later, after `model.transcribe`
returns). -/
theorem marker_absent_at_poll_start :
    (tempAtPollStart { tempExists := true, textExists := false }).tempExists = false ∧
    (tempAtPollStart { tempExists := false, textExists := false }).tempExists = false := by
  constructor <;> rfl

/-- C7 (amended): the marker file is removed (ensured absent) before the
background polling starts; it is created during the run only on the
success path, after the transcription call returns; and it is deleted on
every exit path, so it does not exist after the operation ends. -/
theorem marker_file_scoped (fs : TransFs) (outcome : Except String String) :
    (tempAtPollStart fs).tempExists = false ∧
    (transcribe_audio fs outcome).fs.tempExists = false ∧
    (∀ text, outcome = Except.ok text →
        (transcribe_audio fs outcome).tempWasCreated = true) := by
  refine ⟨?_, ?_, ?_⟩
  · unfold tempAtPollStart
    split_ifs <;> simp_all
  · cases outcome <;>
      simp only [transcribe_audio, tempAtPollStart] <;>
      split_ifs <;> simp_all
  · intro text hok
    subst hok
    rfl

/-- Witness for `marker_file_scoped`: a stale marker file present on
entry, successful transcription. -/
theorem marker_file_scoped_witness :
    (tempAtPollStart { tempExists := true, textExists := false }).tempExists = false ∧
    (transcribe_audio { tempExists := true, textExists := false }
        (Except.ok "txt")).fs.tempExists = false ∧
    (transcribe_audio { tempExists := true, textExists := false }
        (Except.ok "txt")).tempWasCreated = true := by
  obtain ⟨h1, h2, h3⟩ := marker_file_scoped
    { tempExists := true, textExists := false } (Except.ok "txt")
  exact ⟨h1, h2, h3 "txt" rfl⟩

/-- C8 counterexample: the extraction update has no lower clamp — with
duration 10, a (parseable) negative marker `-5000000` drives the displayed
bar to `-50`, below 0, so ProgressState is not clamped to `[0, 100]` on
every update. -/
theorem extract_bar_goes_negative :
    extractTrace 10 0 [some (-5000000)] = [-50] ∧ ((-50 : ℤ) < 0) := by
  norm_num [extractTrace, extractStep, extractProgress, pyTrunc]

/-- C8 (amended): the displayed value never exceeds 100 for either
estimator; it also never goes below 0 provided every parsed extraction
marker is non-negative (the extraction update clamps only from above, so a
negative marker escapes the range); the transcription estimator's counter
and bar stay within `[0, 100]` unconditionally. -/
theorem progress_state_bounded (d : ℚ) (feed : List (Option ℚ))
    (obs : List TrackObs) (hd : 0 < d)
    (hnn : ∀ t : ℚ, some t ∈ feed → 0 ≤ t) :
    (∀ b ∈ extractTrace d 0 feed, 0 ≤ b ∧ b ≤ 100) ∧
    (0 ≤ (trackLoop initTrack obs).progress ∧
      (trackLoop initTrack obs).progress ≤ 100 ∧
      0 ≤ (trackLoop initTrack obs).barN ∧
      (trackLoop initTrack obs).barN ≤ 100) := by
  have htr := trackLoop_bounds obs
    (s := initTrack) ⟨by norm_num [initTrack], by norm_num [initTrack],
      by norm_num [initTrack], by norm_num [initTrack]⟩
  exact ⟨extractTrace_bounds hd feed hnn ⟨le_rfl, by norm_num⟩,
         htr.1, htr.2.1, htr.2.2.1, htr.2.2.2.trans htr.2.1⟩

/-- Witness for `progress_state_bounded` at `d = 10`, the scenario feed,
and one heuristic tick. -/
theorem progress_state_bounded_witness :
    (∀ b ∈ extractTrace 10 0 [some 0, some 2500000], 0 ≤ b ∧ b ≤ 100) ∧
    (0 ≤ (trackLoop initTrack [{ fileSize := none, heurTick := true }]).progress ∧
      (trackLoop initTrack [{ fileSize := none, heurTick := true }]).progress ≤ 100 ∧
      0 ≤ (trackLoop initTrack [{ fileSize := none, heurTick := true }]).barN ∧
      (trackLoop initTrack [{ fileSize := none, heurTick := true }]).barN ≤ 100) :=
  progress_state_bounded 10 [some 0, some 2500000]
    [{ fileSize := none, heurTick := true }] (by norm_num)
    (by intro t ht; simp at ht; rcases ht with rfl | rfl <;> norm_num)

/-- C9: with zero `*.mp4` files in the working directory, `main` reports
the no-input condition and returns immediately: extraction and
transcription are never attempted and no output files are created. -/
theorem no_input_early_return (env : Env) (h : env.mp4Files = []) :
    (runMain env).result = MainResult.noInput ∧
    (runMain env).extractionAttempted = false ∧
    (runMain env).transcriptionAttempted = false ∧
    (runMain env).audioExists = false ∧
    (runMain env).textExists = false := by
  obtain ⟨files, prod, outc⟩ := env
  subst h
  simp [runMain]

/-- Witness for `no_input_early_return` on an empty directory listing. -/
theorem no_input_early_return_witness :
    (runMain { mp4Files := [], extractionProducesAudio := true,
               transcribeOutcome := Except.ok "txt" }).result = MainResult.noInput ∧
    (runMain { mp4Files := [], extractionProducesAudio := true,
               transcribeOutcome := Except.ok "txt" }).extractionAttempted = false ∧
    (runMain { mp4Files := [], extractionProducesAudio := true,
               transcribeOutcome := Except.ok "txt" }).transcriptionAttempted = false ∧
    (runMain { mp4Files := [], extractionProducesAudio := true,
               transcribeOutcome := Except.ok "txt" }).audioExists = false ∧
    (runMain { mp4Files := [], extractionProducesAudio := true,
               transcribeOutcome := Except.ok "txt" }).textExists = false :=
  no_input_early_return
    { mp4Files := [], extractionProducesAudio := true,
      transcribeOutcome := Except.ok "txt" } rfl

/-- C10: a feed line whose `out_time_ms=` value fails to parse lands in
the `except (ValueError, IndexError): pass` branch: the step is total (no
exception escapes) and leaves the bar unchanged, so inserting such a line
anywhere in a feed does not change the final bar value. -/
theorem malformed_line_ignored (d : ℚ) (bar : ℤ) (xs ys : List (Option ℚ)) :
    extractStep d bar none = bar ∧
    processFeed d bar (xs ++ none :: ys) = processFeed d bar (xs ++ ys) := by
  refine ⟨rfl, ?_⟩
  simp [processFeed_append, processFeed, extractStep]
